import Mathlib

/-!
Verification of the Multi_Agent_Dev repository (Python, FastAPI MCP agents).

This file gives a shallow embedding, in Lean 4, of the parts of the source
that the checked properties talk about:

* `src/shared/llm_client.py`  — the LLM gateway (`LLMClient.chat`);
* `src/shared/mcp_base.py`    — the MCP dispatch envelope;
* `src/shared/jira.py`        — the ticket-tracker gateway (`JiraClient`);
* `src/agents/planner/agent.py` — planning handlers (`plan`, `plan_with_jira`);
* `src/agents/risks/agent.py`   — risk handler (`analyze_risks`);
* `src/agents/digest/agent.py`  — digest handler (`daily_digest`);
* `src/agents/image/agent.py`   — image handler (`analyze_image`).

Python strings are modelled as Lean `String` / `List Char`; Python string
methods (`strip`, `lstrip`, `split`, `lower`, substring `in`, `replace`) are
re-implemented below with their documented CPython semantics.  Async code is
pure in the embedding: every awaited upstream call (HTTP to the LLM or the
tracker) becomes an explicit input of type `Except`/a record field, and code
that performs network I/O additionally returns the list of network calls it
made, so that "performs no network I/O" is expressible.  Wall-clock values
(`datetime.utcnow`) are explicit parameters.
-/

/-! ## Python string primitives -/

/-- Python `str` whitespace test used by `str.strip()` (ASCII part, which is
all the analysed code exercises). -/
def pyIsSpace (c : Char) : Bool :=
  c == ' ' || c == '\t' || c == '\n' || c == '\r' || c == '\x0b' || c == '\x0c'

/-- Drop trailing characters satisfying `pyIsSpace` (right half of `str.strip()`). -/
def rstripWs (l : List Char) : List Char :=
  (l.reverse.dropWhile pyIsSpace).reverse

/-- Python `str.strip()` with no argument: remove leading and trailing whitespace. -/
def pyStrip (l : List Char) : List Char :=
  rstripWs (l.dropWhile pyIsSpace)

/-- Python `str.lstrip(chars)`: remove leading characters that belong to `chars`. -/
def pyLstrip (chars : List Char) (l : List Char) : List Char :=
  l.dropWhile (fun c => chars.contains c)

/-- Python `str.split("\n")`: split on every newline, keeping empty pieces
(`"".split("\n") == [""]`, trailing separator yields a final empty piece). -/
def splitNl : List Char → List (List Char)
  | [] => [[]]
  | c :: rest =>
    if c = '\n' then [] :: splitNl rest
    else
      match splitNl rest with
      | [] => [[c]]
      | l :: ls => (c :: l) :: ls

/-- Python `" ".join(strings)` on character lists. -/
def joinSp : List (List Char) → List Char
  | [] => []
  | [x] => x
  | x :: y :: t => x ++ ' ' :: joinSp (y :: t)

/-- Python substring test `needle in hay`. -/
def isSubstrOf (needle : List Char) : List Char → Bool
  | [] => needle.isEmpty
  | c :: rest => needle.isPrefixOf (c :: rest) || isSubstrOf needle rest

/-- Python `str.lower()` (ASCII part, which is all the analysed code exercises). -/
def lowerList (l : List Char) : List Char :=
  l.map Char.toLower

/-! ## Shared data model (`src/shared/models.py`)

`ReasoningStep` is a pydantic model with `step_number`, `description` and two
optional dicts.  Dict values that the agents actually store are None, bools,
ints, strings, lists of strings, or a whole Jira issue record; `PyVal` covers
exactly those.  The `timestamp` field (a `default_factory` reading the wall
clock) is not modelled: no checked property mentions it. -/

/-- A Jira issue record as returned by `JiraClient.create_task`
(`src/shared/jira.py`).  The two Python branches return dicts with different
key sets; absent keys are `none` here. -/
structure JiraIssue where
  status : String
  issue_key : Option String
  url : Option String
  id : Option String
  mock : Bool
  error : Option String
deriving DecidableEq, Repr

/-- Values stored in `input_data` / `output_data` dicts of reasoning steps. -/
inductive PyVal where
  | vnone
  | vbool (b : Bool)
  | vint (n : Int)
  | vstr (s : String)
  | vlistStr (xs : List String)
  | vjira (j : JiraIssue)
deriving DecidableEq, Repr

/-- `ReasoningStep` from `src/shared/models.py` (timestamp omitted, see above). -/
structure ReasoningStep where
  step_number : Nat
  description : String
  input_data : Option (List (String × PyVal))
  output_data : Option (List (String × PyVal))
deriving DecidableEq, Repr

/-- Python `None`-vs-`str` as stored in a dict value. -/
def optStr : Option String → PyVal
  | none => PyVal.vnone
  | some s => PyVal.vstr s

/-- Python truthiness of an `Optional[str]` variable (`None` and `""` are falsy). -/
def pyTruthy : Option String → Bool
  | none => false
  | some s => s ≠ ""

/-! ## LLM gateway (`src/shared/llm_client.py`)

`LLMClient.chat` branches on the configured provider.  The whole real
(`"groq"`) HTTP interaction — POST, `raise_for_status`, JSON decoding and
field extraction — sits inside one `try/except` whose handler returns
`"[LLM error] " + str(e)`; the embedding therefore takes the outcome of that
upstream interaction as an `Except String String` input (`.error msg` is any
raised transport/HTTP/decoding failure with message `msg`, `.ok content` the
extracted message content). -/

def chat (provider : String) (upstream : Except String String) (prompt : String) : String :=
  if provider = "stub" then "[stub] " ++ prompt
  else if provider ≠ "groq" then "[unsupported provider] " ++ provider
  else
    match upstream with
    | Except.ok content => content
    | Except.error msg => "[LLM error] " ++ msg

/-! ## MCP dispatch envelope (`src/shared/mcp_base.py`, lines 62-69)

After body parsing and validation succeed, the envelope computes
`tool_name = req.method.replace("tools/", "")` — CPython `str.replace`
removes every non-overlapping occurrence, scanning left to right — and
returns the unknown-tool error object when `tool_name` is not a key of the
registry, else invokes the handler. -/

/-- CPython `method.replace("tools/", "")`: remove every non-overlapping
occurrence of `"tools/"`, scanning left to right. -/
def replaceToolsAll : List Char → List Char
  | 't' :: 'o' :: 'o' :: 'l' :: 's' :: '/' :: rest => replaceToolsAll rest
  | c :: rest => c :: replaceToolsAll rest
  | [] => []

/-- `tool_name` as computed at `src/shared/mcp_base.py:63`. -/
def tool_name (method : String) : String :=
  String.mk (replaceToolsAll method.toList)

/-- Outcome of the dispatch: either the unknown-tool error object
(`error`, `available_tools`) or invocation of the named handler. -/
inductive DispatchOutcome where
  | err (error : String) (available_tools : List String)
  | invoke (tool : String)
deriving DecidableEq, Repr

/-- Dispatch of `src/shared/mcp_base.py:62-71`, with `tools` the registry's
key list in insertion order. -/
def mcpDispatch (tools : List String) (method : String) : DispatchOutcome :=
  let t := tool_name method
  if tools.contains t then DispatchOutcome.invoke t
  else DispatchOutcome.err ("Unknown tool: " ++ t) tools

/-- Modelled from the spec's words (for comparison with `tool_name`): strip
one optional *leading* `"tools/"` from the method name. -/
def specLeadingStrip (method : String) : String :=
  if ("tools/".toList).isPrefixOf method.toList then
    String.mk (method.toList.drop 6)
  else method

/-! ## Ticket-tracker gateway (`src/shared/jira.py`)

The client's configuration — mock mode, base URL, project key — is a record.
Python's builtin `hash` (salted per process) is an abstract function
parameter `pyhash`; `hash(summary) % 1000` with a positive modulus always
lands in `[0, 999]`, which `Int.emod` reproduces.  The outcome of the real
`POST /rest/api/3/issue` (which `create_task` catches entirely) and of the
real `GET /rest/api/3/search` are inputs in the environment; both operations
also return the list of network requests they issued, so that mock mode's
"no network I/O" is a provable statement. -/

/-- Outcome of the real Jira issue-creation HTTP interaction. -/
inductive NetResult where
  | ok (key : String) (id : Option String)
  | httpError (status : Nat) (text : String)
  | exc (msg : String)
deriving DecidableEq, Repr

/-- One issue of a Jira search response (`fields.summary`, `fields.status.name`). -/
structure IssueFields where
  summary : String
  status_name : String
deriving DecidableEq, Repr

structure Issue where
  key : String
  fields : IssueFields
deriving DecidableEq, Repr

/-- `JiraClient` state (from `__init__`) together with the abstracted
upstream behaviour of the two HTTP endpoints it may call. -/
structure JiraEnv where
  mock_mode : Bool
  url : String
  project_key : String
  pyhash : String → Int
  netCreate : String → String → NetResult
  netSearch : Except String (List Issue)

/-- `JiraClient.create_task` (`src/shared/jira.py:24-113`).  Returns the
issue record and the list of network requests performed (the URL of each
POST).  The mock branch returns before any `httpx` use. -/
def create_task (env : JiraEnv) (summary description : String) : JiraIssue × List String :=
  if env.mock_mode then
    let mock_key := env.project_key ++ "-" ++ toString (env.pyhash summary % 1000)
    ({ status := "mock_created"
       issue_key := some mock_key
       url := some ("https://mock-jira.atlassian.net/browse/" ++ mock_key)
       id := none
       mock := true
       error := none }, [])
  else
    let call := env.url ++ "/rest/api/3/issue"
    match env.netCreate summary description with
    | NetResult.ok key id =>
        ({ status := "created"
           issue_key := some key
           url := some (env.url ++ "/browse/" ++ key)
           id := id
           mock := false
           error := none }, [call])
    | NetResult.httpError st text =>
        ({ status := "error"
           issue_key := none
           url := none
           id := none
           mock := false
           error := some ("HTTP " ++ toString st ++ ": " ++ String.mk (text.toList.take 200)) },
         [call])
    | NetResult.exc msg =>
        ({ status := "error"
           issue_key := none
           url := none
           id := none
           mock := false
           error := some msg }, [call])

/-- `JiraClient.get_project_issues` (`src/shared/jira.py:115-164`).  The mock
branch returns three fixed records; the real branch returns the upstream
search result (`data.get("issues", [])`) or `[]` on any exception. -/
def get_project_issues (env : JiraEnv) (max_results : Nat) : List Issue × List String :=
  if env.mock_mode then
    ([ { key := env.project_key ++ "-1"
         fields := { summary := "Implement authentication", status_name := "Done" } },
       { key := env.project_key ++ "-2"
         fields := { summary := "Add API documentation", status_name := "In Progress" } },
       { key := env.project_key ++ "-3"
         fields := { summary := "Setup CI/CD", status_name := "To Do" } } ], [])
  else
    let call := env.url ++ "/rest/api/3/search?maxResults=" ++ toString max_results
    match env.netSearch with
    | Except.ok issues => (issues, [call])
    | Except.error _ => ([], [call])

/-! ## Planning handlers (`src/agents/planner/agent.py`)

`LLMClient.chat` never raises in the embedding (it returns a string for every
outcome, see `chat`), so the `except` paths of `plan` (lines 128-140) and
`plan_with_jira` (lines 202-209) and the error guard at line 158 are
unreachable and not modelled; likewise `create_task` catches all its own
exceptions.  `plan` takes the LLM response text as an input. -/

/-- The prompt built at `src/agents/planner/agent.py:61-67`. -/
def planPrompt (description : String) : String :=
  "You are a senior project planner.\n" ++
  "Break down this task into 3-5 concrete, actionable subtasks:\n" ++
  description ++ "\n\n" ++
  "Return ONLY a numbered list, one subtask per line.\n" ++
  "Each subtask should be clear and specific."

/-- Numbered-line parsing of the LLM response
(`src/agents/planner/agent.py:78-82`): keep lines whose stripped text is
nonempty and starts with a character of `"0123456789.-"`, and strip markers
with `lstrip("0123456789.-) ")`. -/
def parseSubtasks (response : String) : List String :=
  (splitNl response.toList).filterMap fun line =>
    match pyStrip line with
    | [] => none
    | c :: cs =>
        if ("0123456789.-".toList).contains c then
          some (String.mk (pyLstrip ("0123456789.-) ".toList) (c :: cs)))
        else none

/-- Fallback parsing (`src/agents/planner/agent.py:85`): the first five
nonempty stripped lines of the response. -/
def fallbackLines (response : String) : List String :=
  ((((splitNl response.toList).map pyStrip).filter (fun l => l ≠ [])).take 5).map String.mk

/-- `error_indicators` (`src/agents/planner/agent.py:30-39`). -/
def error_indicators : List String :=
  ["llm error", "unauthorized", "401", "client error",
   "for more information check", "status/401", "connection error", "timeout"]

/-- `stub_indicators` (`src/agents/planner/agent.py:41-47`). -/
def stub_indicators : List String :=
  ["[stub]", "you are a senior project planner", "return only a numbered list",
   "break down this task", "each subtask should be"]

/-- `PlannerAgent._is_invalid_response` (`src/agents/planner/agent.py:23-49`). -/
def is_invalid_response (subtasks : List String) : Bool :=
  match subtasks with
  | [] => true
  | _ =>
    let text := lowerList (joinSp (subtasks.map String.toList))
    (error_indicators ++ stub_indicators).any fun ind => isSubstrOf ind.toList text

/-- The fixed fallback list (`src/agents/planner/agent.py:88-94`). -/
def fallback_subtasks : List String :=
  ["Research requirements and constraints",
   "Design solution architecture",
   "Implement core functionality",
   "Add validation and error handling",
   "Write tests and documentation"]

/-- Subtasks before the validity check (`src/agents/planner/agent.py:78-85`). -/
def plan_raw_subtasks (response : String) : List String :=
  let parsed := parseSubtasks response
  if parsed = [] then fallbackLines response else parsed

structure PlanResult where
  task : String
  subtasks : List String
  reasoning : List ReasoningStep
deriving DecidableEq, Repr

/-- Step 1 of `plan` (`src/agents/planner/agent.py:55-59`). -/
def planStep1 (description : String) : ReasoningStep :=
  { step_number := 1
    description := "Received task for planning"
    input_data := some [("description", PyVal.vstr description)]
    output_data := none }

/-- Step 2 of `plan` (`src/agents/planner/agent.py:69-72`). -/
def planStep2 : ReasoningStep :=
  { step_number := 2
    description := "Generated prompt for LLM planning"
    input_data := none
    output_data := none }

/-- Step 4, fallback branch (`src/agents/planner/agent.py:96-103`). -/
def planStep4Fallback (response : String) : ReasoningStep :=
  { step_number := 4
    description := "Detected LLM stub/error response — using safe fallback subtasks"
    input_data := none
    output_data := some
      [("fallback_used", PyVal.vbool true),
       ("original_response_preview", PyVal.vstr (String.mk (response.toList.take 200)))] }

/-- Step 4, success branch (`src/agents/planner/agent.py:107-114`). -/
def planStep4Ok (subtasks : List String) : ReasoningStep :=
  { step_number := 4
    description := "Successfully parsed subtasks from LLM response"
    input_data := none
    output_data := some
      [("subtasks_count", PyVal.vint subtasks.length),
       ("subtasks", PyVal.vlistStr subtasks)] }

/-- `PlannerAgent.plan` (`src/agents/planner/agent.py:51-126`), with the
LLM response as input. -/
def plan (description : String) (llmResponse : String) : PlanResult :=
  let subtasks0 := plan_raw_subtasks llmResponse
  let invalid := is_invalid_response subtasks0
  { task := description
    subtasks := if invalid then fallback_subtasks else subtasks0
    reasoning := [planStep1 description, planStep2,
                  if invalid then planStep4Fallback llmResponse else planStep4Ok subtasks0] }

structure PWJResult where
  task : String
  subtasks : List String
  jira_issues : List JiraIssue
  jira_mode : String
  reasoning : List ReasoningStep
deriving DecidableEq, Repr

/-- Step 1 of `plan_with_jira` (`src/agents/planner/agent.py:146-150`). -/
def pwjStep1 (description : String) (project_key : Option String) : ReasoningStep :=
  { step_number := 1
    description := "Received task for planning with Jira integration"
    input_data := some [("description", PyVal.vstr description), ("project_key", optStr project_key)]
    output_data := none }

/-- Step 2 of `plan_with_jira` (`src/agents/planner/agent.py:161-165`). -/
def pwjStep2 (subtasksCount : Nat) : ReasoningStep :=
  { step_number := 2
    description := "Planning phase completed, initiating Jira integration"
    input_data := none
    output_data := some [("subtasks_count", PyVal.vint subtasksCount)] }

/-- Step 3 of `plan_with_jira` (`src/agents/planner/agent.py:177-181`). -/
def pwjStep3 (epic : JiraIssue) : ReasoningStep :=
  { step_number := 3
    description := "Created Epic in Jira"
    input_data := none
    output_data := some [("epic", PyVal.vjira epic)] }

/-- Step 4 of `plan_with_jira` (`src/agents/planner/agent.py:191-195`). -/
def pwjStep4 (totalIssues : Nat) : ReasoningStep :=
  { step_number := 4
    description := "Successfully created all Jira issues"
    input_data := none
    output_data := some [("total_issues_created", PyVal.vint totalIssues)] }

/-- `PlannerAgent.plan_with_jira` (`src/agents/planner/agent.py:142-217`).
The `project_key` argument is accepted but, as in the source, never used by
the body (the Jira client uses its own configured key).  `create_task`
catches every exception internally, so the `except` branch at lines 202-209
cannot fire; the guard at lines 158-159 is vacuous because `plan` never
returns an `"error"` key in this embedding (see `plan`). -/
def plan_with_jira (env : JiraEnv) (description llmResponse : String)
    (project_key : Option String) : PWJResult :=
  let planRes := plan description llmResponse
  let subtasks := planRes.subtasks
  let epic := (create_task env ("[Epic] " ++ description)
      ("Auto-generated by OrchestrAI\nSubtasks planned: " ++ toString subtasks.length)).1
  let subIssues := subtasks.enum.map fun p =>
    (create_task env ("[Subtask " ++ toString (p.1 + 1) ++ "] " ++ p.2)
      ("Part of epic: " ++ description)).1
  let jira_issues := epic :: subIssues
  { task := description
    subtasks := subtasks
    jira_issues := jira_issues
    jira_mode := if env.mock_mode then "mock" else "real"
    reasoning := pwjStep1 description project_key :: planRes.reasoning ++
      [pwjStep2 subtasks.length, pwjStep3 epic, pwjStep4 jira_issues.length] }

/-- Bool-valued monotonicity (each step number at least the previous one) of
a trace's step numbers. -/
def stepsMonotone : List Nat → Bool
  | [] => true
  | [_] => true
  | a :: b :: t => (a ≤ b) && stepsMonotone (b :: t)

/-! ## Risk handler (`src/agents/risks/agent.py`, lines 49-65) -/

/-- The "risk-looking" test on a stripped line
(`src/agents/risks/agent.py:54-58`): marker start, literal `"Risk:"`, or the
keyword `"risk"` in the lowered line. -/
def riskLooking (l : List Char) : Bool :=
  (["- ", "* ", "• ", "1.", "2.", "3.", "4.", "5."].any fun p => (p.toList).isPrefixOf l) ||
  isSubstrOf ("Risk:".toList) l ||
  isSubstrOf ("risk".toList) (lowerList l)

/-- Per-line extraction of `analyze_risks` (`src/agents/risks/agent.py:51-62`):
strip the line, test `riskLooking`, strip markers
(`lstrip("-*•0123456789. ").strip()`), and keep only lines longer than 20
characters. -/
def riskLineExtract (line : List Char) : Option (List Char) :=
  let l := pyStrip line
  if l = [] then none
  else if riskLooking l then
    let clean_line := pyStrip (pyLstrip ("-*•0123456789. ".toList) l)
    if 20 < clean_line.length then some clean_line else none
  else none

/-- `detected_risks` as computed by `RisksAgent.analyze_risks`
(`src/agents/risks/agent.py:49-65`), as a function of the analysis text. -/
def detected_risks (analysis : String) : List String :=
  (((splitNl analysis.toList).filterMap riskLineExtract).take 10).map String.mk

/-! ## Digest handler (`src/agents/digest/agent.py`)

`datetime.utcnow().strftime("%Y-%m-%d")` is the explicit parameter `today`.
The `except` path (lines 76-88) is unreachable because `chat` never raises;
the gateway is the function parameter `chatF`. -/

/-- `YYYY-MM-DD` shape: ten characters, digits with dashes at positions 4 and 7. -/
def isDateFormat (s : String) : Bool :=
  match s.toList with
  | [y1, y2, y3, y4, h1, m1, m2, h2, d1, d2] =>
      y1.isDigit && y2.isDigit && y3.isDigit && y4.isDigit &&
      h1 == '-' && m1.isDigit && m2.isDigit && h2 == '-' && d1.isDigit && d2.isDigit
  | _ => false

structure DigestResult where
  date : String
  summary : String
  reasoning : List ReasoningStep
deriving DecidableEq, Repr

/-- The prompt built at `src/agents/digest/agent.py:33-46`. -/
def digestPrompt (date : String) : String :=
  "Generate a concise daily project digest for " ++ date ++ ".\n\n" ++
  "Structure:\n" ++
  "📅 Date: " ++ date ++ "\n\n" ++
  "✅ Key Achievements (2-3 items):\n" ++
  "- [List main accomplishments]\n\n" ++
  "🚧 Current Blockers (if any):\n" ++
  "- [List or write 'None']\n\n" ++
  "👥 Team Status:\n" ++
  "- [Brief mood/productivity note]\n\n" ++
  "📊 Progress Summary:\n" ++
  "- [1-2 sentences on overall progress]\n\n" ++
  "Keep it positive, actionable, and under 150 words total."

/-- `DigestAgent.daily_digest` (`src/agents/digest/agent.py:19-75`).
The source first replaces a falsy `date` argument by today's date (line 24)
and only *afterwards* stores `"auto_date": date is None` in step 1 (line 30);
the embedding reproduces that ordering with the rebound variable `date1`. -/
def daily_digest (chatF : String → String) (today : String) (dateArg : Option String) : DigestResult :=
  let date1 : Option String := if pyTruthy dateArg then dateArg else some today
  let step1 : ReasoningStep :=
    { step_number := 1
      description := "Daily digest requested"
      input_data := some [("date", optStr date1), ("auto_date", PyVal.vbool date1.isNone)]
      output_data := none }
  let step2 : ReasoningStep :=
    { step_number := 2
      description := "Generated digest prompt"
      input_data := none
      output_data := none }
  let dateStr := date1.getD ""
  let digest := chatF (digestPrompt dateStr)
  let step3 : ReasoningStep :=
    { step_number := 3
      description := "Daily digest generated"
      input_data := none
      output_data := some [("digest_length", PyVal.vint digest.length), ("date_used", PyVal.vstr dateStr)] }
  { date := dateStr
    summary := digest
    reasoning := [step1, step2, step3] }

/-! ## Image handler (`src/agents/image/agent.py`)

The gateway is the function parameter `chatF`; the handler also returns the
list of prompts it sent to the gateway, so that "makes no LLM call" is a
provable statement. -/

structure ImageResult where
  summary : Option String
  error : Option String
  reasoning : List ReasoningStep
deriving DecidableEq, Repr

/-- Step 1 of `analyze_image` (`src/agents/image/agent.py:26-34`). -/
def imageStep1 (image_url image_base64 context : Option String) : ReasoningStep :=
  { step_number := 1
    description := "Image analysis requested"
    input_data := some
      [("image_url", optStr image_url),
       ("has_base64", PyVal.vbool image_base64.isSome),
       ("context", optStr context)]
    output_data := none }

/-- The prompt built at `src/agents/image/agent.py:42-51`. -/
def imagePrompt (context : Option String) : String :=
  "You are a senior UX and system design reviewer.\n" ++
  "Analyze the provided image and give structured feedback.\n\n" ++
  "Context: " ++ (if pyTruthy context then context.getD "" else "Not provided") ++ "\n\n" ++
  "Provide:\n" ++
  "1. Short summary\n" ++
  "2. Detected issues (type + severity)\n" ++
  "3. Improvement suggestions\n" ++
  "Keep it concise and structured."

/-- `ImageAgent.analyze_image` (`src/agents/image/agent.py:18-69`).  The
guard at line 36 is Python truthiness (`not image_url and not image_base64`). -/
def analyze_image (chatF : String → String)
    (image_url image_base64 context : Option String) : ImageResult × List String :=
  let step1 := imageStep1 image_url image_base64 context
  if ¬ pyTruthy image_url ∧ ¬ pyTruthy image_base64 then
    ({ summary := none, error := some "No image provided", reasoning := [step1] }, [])
  else
    let prompt := imagePrompt context
    let analysis := chatF prompt
    let step2 : ReasoningStep :=
      { step_number := 2
        description := "Generated image analysis prompt"
        input_data := none
        output_data := none }
    let step3 : ReasoningStep :=
      { step_number := 3
        description := "Image analysis completed"
        input_data := none
        output_data := some [("analysis_length", PyVal.vint analysis.length)] }
    ({ summary := some analysis, error := none, reasoning := [step1, step2, step3] }, [prompt])

/-! ## Concrete instances used by witnesses and counterexamples -/

/-- A mock-mode Jira environment (no credentials configured); the upstream
behaviours are arbitrary since mock mode never consults them. -/
def mockJiraEnv : JiraEnv :=
  { mock_mode := true
    url := ""
    project_key := "PROJ"
    pyhash := fun s => (s.length : Int)
    netCreate := fun _ _ => NetResult.exc "offline"
    netSearch := Except.error "offline" }

/-- A sample analysis text for the risk handler. -/
def risksSample : String :=
  "- Security risk: SQL injection possible\nshort risk\nno marker on this line at all"

/-! # Theorems -/

/-! ## Helper lemmas -/

theorem splitNl_ne_nil (l : List Char) : splitNl l ≠ [] := by
  cases l with
  | nil => simp [splitNl]
  | cons c rest =>
    simp only [splitNl]
    split
    · simp
    · split <;> simp

theorem splitNl_append_no_nl (xs ys : List Char) (h : ∀ c ∈ xs, c ≠ '\n') :
    ∃ t ls, splitNl ys = t :: ls ∧ splitNl (xs ++ ys) = (xs ++ t) :: ls := by
  induction xs with
  | nil =>
    cases hy : splitNl ys with
    | nil => exact absurd hy (splitNl_ne_nil ys)
    | cons t ls => exact ⟨t, ls, rfl, by simpa using hy⟩
  | cons c xs ih =>
    obtain ⟨t, ls, h1, h2⟩ := ih fun a ha => h a (List.mem_cons_of_mem _ ha)
    refine ⟨t, ls, h1, ?_⟩
    have hc : c ≠ '\n' := h c (List.mem_cons_self c xs)
    rw [List.cons_append]
    simp only [splitNl]
    rw [if_neg hc, h2]
    rfl

theorem dropWhile_eq_self_of_forall (f : Char → Bool) (l : List Char)
    (h : ∀ c ∈ l, f c = false) : l.dropWhile f = l := by
  cases l with
  | nil => rfl
  | cons c cs =>
    rw [List.dropWhile_cons, if_neg]
    simp [h c (List.mem_cons_self c cs)]

theorem dropWhile_append_keeps (f : Char → Bool) (u v : List Char)
    (hv : v.dropWhile f = v) : ∃ w, (u ++ v).dropWhile f = w ++ v := by
  induction u with
  | nil => exact ⟨[], by rw [List.nil_append]; exact hv⟩
  | cons c u ih =>
    by_cases hc : f c = true
    · obtain ⟨w, hw⟩ := ih
      exact ⟨w, by rw [List.cons_append, List.dropWhile_cons, if_pos hc, hw]⟩
    · exact ⟨c :: u, by rw [List.cons_append, List.dropWhile_cons, if_neg hc]⟩

theorem pyStrip_append_nonws (p t : List Char) (hp : p ≠ [])
    (hws : ∀ c ∈ p, pyIsSpace c = false) :
    ∃ u, pyStrip (p ++ t) = p ++ u := by
  have hleft : (p ++ t).dropWhile pyIsSpace = p ++ t := by
    cases p with
    | nil => exact absurd rfl hp
    | cons c cs =>
      rw [List.cons_append, List.dropWhile_cons, if_neg]
      simp [hws c (List.mem_cons_self c cs)]
  have hrev : (p.reverse).dropWhile pyIsSpace = p.reverse :=
    dropWhile_eq_self_of_forall pyIsSpace p.reverse
      fun c hc => hws c (List.mem_reverse.mp hc)
  obtain ⟨w, hw⟩ := dropWhile_append_keeps pyIsSpace t.reverse p.reverse hrev
  refine ⟨w.reverse, ?_⟩
  unfold pyStrip rstripWs
  rw [hleft, List.reverse_append, hw, List.reverse_append, List.reverse_reverse]

theorem isSubstrOf_of_pre (needle hay : List Char) (hne : needle ≠ [])
    (hpre : needle.isPrefixOf hay = true) : isSubstrOf needle hay = true := by
  cases hay with
  | nil =>
    cases needle with
    | nil => exact absurd rfl hne
    | cons c cs => simp [List.isPrefixOf] at hpre
  | cons c cs => simp [isSubstrOf, hpre]

theorem joinSp_cons (x : List Char) (xs : List (List Char)) :
    ∃ u, joinSp (x :: xs) = x ++ u := by
  cases xs with
  | nil => exact ⟨[], by simp [joinSp]⟩
  | cons y ys => exact ⟨' ' :: joinSp (y :: ys), rfl⟩

/-- Any subtask list whose head starts with `"[stub]"` is flagged invalid:
the joined, lowered text then contains the `"[stub]"` indicator. -/
theorem invalid_of_head_stub (u : List Char) (R : List String) :
    is_invalid_response (String.mk ("[stub]".toList ++ u) :: R) = true := by
  simp only [is_invalid_response]
  rw [List.any_eq_true]
  refine ⟨"[stub]", by simp [error_indicators, stub_indicators], ?_⟩
  obtain ⟨w, hw⟩ := joinSp_cons ("[stub]".toList ++ u) (R.map String.toList)
  have hmk : (String.mk ("[stub]".toList ++ u)).toList = "[stub]".toList ++ u := rfl
  rw [List.map_cons, hmk, hw, List.append_assoc]
  simp only [lowerList, List.map_append]
  have hl : List.map Char.toLower ("[stub]".toList) = "[stub]".toList := by decide
  rw [hl]
  apply isSubstrOf_of_pre _ _ (by decide)
  exact List.isPrefixOf_iff_prefix.mpr (List.prefix_append _ _)

/-- A response starting with `"[stub] "` makes the first fallback line start
with `"[stub]"`, so the fallback lines are flagged invalid. -/
theorem stub_fallback_invalid (r : String)
    (h1 : ("[stub] ".toList).isPrefixOf r.toList = true) :
    is_invalid_response (fallbackLines r) = true := by
  obtain ⟨t, ht⟩ : ∃ t, r.toList = "[stub] ".toList ++ t := by
    obtain ⟨t, ht⟩ := List.isPrefixOf_iff_prefix.mp h1
    exact ⟨t, ht.symm⟩
  obtain ⟨t0, ls, hsplit, happ⟩ :=
    splitNl_append_no_nl ("[stub] ".toList) t (by decide)
  have heq : "[stub] ".toList ++ t0 = "[stub]".toList ++ (' ' :: t0) := rfl
  obtain ⟨u, hu⟩ : ∃ u, pyStrip ("[stub] ".toList ++ t0) = "[stub]".toList ++ u := by
    rw [heq]
    exact pyStrip_append_nonws ("[stub]".toList) (' ' :: t0) (by decide) (by decide)
  have hlines : splitNl r.toList = ("[stub] ".toList ++ t0) :: ls := by
    rw [ht]; exact happ
  unfold fallbackLines
  rw [hlines, List.map_cons, hu, List.filter_cons]
  rw [if_pos (by simp)]
  rw [List.take_succ_cons, List.map_cons]
  exact invalid_of_head_stub u _

theorem plan_reasoning_numbers (d r : String) :
    (plan d r).reasoning.map ReasoningStep.step_number = [1, 2, 4] := by
  simp [plan, planStep1, planStep2, planStep4Fallback, planStep4Ok,
    apply_ite ReasoningStep.step_number]

theorem pwj_reasoning_numbers (env : JiraEnv) (d r : String) (pk : Option String) :
    (plan_with_jira env d r pk).reasoning.map ReasoningStep.step_number =
      [1, 1, 2, 4, 2, 3, 4] := by
  simp [plan_with_jira, pwjStep1, pwjStep2, pwjStep3, pwjStep4, plan_reasoning_numbers]

/-! ## C1 — MCP dispatch and the `tools/` stripping -/

/-- C1 (counterexample): the envelope does not strip just one leading
`"tools/"`; `str.replace` removes every occurrence.  For the registry
`["plan"]` and method `"tools/tools/plan"`, the name left after stripping a
single leading `"tools/"` is `"tools/plan"`, which is not registered, so the
claim demands the unknown-tool error; the code instead dispatches to
`"plan"`. -/
theorem mcp_dispatch_leading_strip_refuted :
    specLeadingStrip "tools/tools/plan" = "tools/plan" ∧
    "tools/plan" ∉ ["plan"] ∧
    mcpDispatch ["plan"] "tools/tools/plan" = DispatchOutcome.invoke "plan" := by
  refine ⟨?_, ?_, ?_⟩ <;> decide

/-- C1 (amended): the envelope matches the method name against registered
tool names after removing every occurrence of `"tools/"` (Python
`str.replace`), and for any method whose name after that removal is not
registered it returns the error `"Unknown tool: <name>"` together with
`available_tools` listing exactly the registered tool names. -/
theorem mcp_unknown_tool_error (tools : List String) (method : String)
    (h : tool_name method ∉ tools) :
    mcpDispatch tools method =
      DispatchOutcome.err ("Unknown tool: " ++ tool_name method) tools := by
  simp [mcpDispatch, h]

theorem mcp_unknown_tool_error_witness :
    tool_name "nope" ∉ ["plan"] ∧
    mcpDispatch ["plan"] "nope" =
      DispatchOutcome.err ("Unknown tool: " ++ tool_name "nope") ["plan"] :=
  ⟨by decide, mcp_unknown_tool_error ["plan"] "nope" (by decide)⟩

/-! ## C2 — groq-mode errors become the sentinel string -/

/-- C2: in `"groq"` mode, any failure of the upstream call is returned as
`"[LLM error] " + message`; `chat` is a total function of the upstream
outcome, so the exception never reaches the caller. -/
theorem chat_groq_error_sentinel (prompt msg : String) :
    chat "groq" (Except.error msg) prompt = "[LLM error] " ++ msg := rfl

/-! ## C3 — stub-mode echo -/

/-- C3: in `"stub"` mode, `chat X` returns exactly `"[stub] " ++ X`, and the
result does not depend on the upstream environment (two calls with the same
input return the same output). -/
theorem chat_stub_echo_deterministic (X : String) (u u' : Except String String) :
    chat "stub" u X = "[stub] " ++ X ∧ chat "stub" u X = chat "stub" u' X :=
  ⟨rfl, rfl⟩

/-! ## C4 — numbered-list parsing -/

/-- C4: when the LLM call returns `"1. Do A\n2. Do B\n3. Do C"`, the plan
result's subtasks are `["Do A", "Do B", "Do C"]`. -/
theorem plan_parses_numbered_list (description : String) :
    (plan description "1. Do A\n2. Do B\n3. Do C").subtasks =
      ["Do A", "Do B", "Do C"] := rfl

/-! ## C7 — mock-mode ticket tracker -/

/-- C7: in mock mode, `get_project_issues` returns exactly 3 records with
statuses Done / In Progress / To Do, and `create_task` performs no network
request, reports `mock = true`, and derives its issue key from the hash of
the summary argument. -/
theorem jira_mock_behavior (env : JiraEnv) (hm : env.mock_mode = true)
    (summary description : String) (max_results : Nat) :
    (get_project_issues env max_results).1.length = 3 ∧
    (get_project_issues env max_results).1.map (fun i => i.fields.status_name) =
      ["Done", "In Progress", "To Do"] ∧
    (create_task env summary description).2 = [] ∧
    (create_task env summary description).1.mock = true ∧
    (create_task env summary description).1.issue_key =
      some (env.project_key ++ "-" ++ toString (env.pyhash summary % 1000)) := by
  refine ⟨?_, ?_, ?_, ?_, ?_⟩ <;> simp [get_project_issues, create_task, hm]

theorem jira_mock_behavior_witness :
    mockJiraEnv.mock_mode = true ∧
    ((get_project_issues mockJiraEnv 50).1.length = 3 ∧
     (get_project_issues mockJiraEnv 50).1.map (fun i => i.fields.status_name) =
       ["Done", "In Progress", "To Do"] ∧
     (create_task mockJiraEnv "Implement login" "details").2 = [] ∧
     (create_task mockJiraEnv "Implement login" "details").1.mock = true ∧
     (create_task mockJiraEnv "Implement login" "details").1.issue_key =
       some (mockJiraEnv.project_key ++ "-" ++
         toString (mockJiraEnv.pyhash "Implement login" % 1000))) :=
  ⟨rfl, jira_mock_behavior mockJiraEnv rfl "Implement login" "details" 50⟩

/-! ## C8 — the digest `auto_date` flag (code bug) -/

/-- C8 (evaluation at the failing input): when `date` is omitted, the
returned `date` field is today's `YYYY-MM-DD` string — but
`reasoning[0].input_data["auto_date"]` is `False`, not `True`: the source
reassigns `date` to today's date *before* computing `date is None`, so the
flag can never record that the date was auto-filled. -/
theorem daily_digest_auto_date_false (chatF : String → String) (today : String)
    (h : isDateFormat today = true) :
    (daily_digest chatF today none).date = today ∧
    isDateFormat (daily_digest chatF today none).date = true ∧
    ((daily_digest chatF today none).reasoning.head?.map fun st =>
        (st.input_data.getD []).lookup "auto_date") = some (some (PyVal.vbool false)) :=
  ⟨rfl, h, rfl⟩

theorem daily_digest_auto_date_false_witness :
    isDateFormat "2026-10-12" = true ∧
    ((daily_digest (fun s => s) "2026-10-12" none).date = "2026-10-12" ∧
     isDateFormat (daily_digest (fun s => s) "2026-10-12" none).date = true ∧
     ((daily_digest (fun s => s) "2026-10-12" none).reasoning.head?.map fun st =>
         (st.input_data.getD []).lookup "auto_date") = some (some (PyVal.vbool false))) :=
  ⟨by decide, daily_digest_auto_date_false (fun s => s) "2026-10-12" (by decide)⟩

/-! ## C10 — image handler guard -/

/-- C10: with both `image_url` and `image_base64` absent, `analyze_image`
returns the error `"No image provided"` together with the reasoning recorded
so far (just step 1), and sends no prompt to the LLM gateway. -/
theorem analyze_image_no_image_guard (chatF : String → String) (context : Option String) :
    analyze_image chatF none none context =
      ({ summary := none
         error := some "No image provided"
         reasoning := [imageStep1 none none context] }, []) := rfl

/-! ## C9 — step numbering of reasoning traces -/

/-- C9 (counterexample): one concrete invocation of `plan_with_jira` (mock
tracker, any LLM response) produces the step numbers `[1, 1, 2, 4, 2, 3, 4]`,
which are not monotonic — the concatenated inner trace restarts at 1 and the
outer numbering drops from 4 back to 2. -/
theorem plan_with_jira_monotone_refuted :
    (plan_with_jira mockJiraEnv "Ship feature" "resp" none).reasoning.map
        ReasoningStep.step_number = [1, 1, 2, 4, 2, 3, 4] ∧
    stepsMonotone ((plan_with_jira mockJiraEnv "Ship feature" "resp" none).reasoning.map
        ReasoningStep.step_number) = false := by
  refine ⟨?_, ?_⟩ <;> rfl

/-- C9 (amended): numbering is handler-local and restarts at 1 per
invocation; the trace of `plan` itself is monotonic (`[1, 2, 4]`), but the
composite `plan_with_jira` trace is the concatenation of its own step 1, the
inner plan trace, and its own steps 2-4, and that concatenation is *not*
monotonic. -/
theorem reasoning_step_numbers_amended (env : JiraEnv) (d r : String) (pk : Option String) :
    (plan d r).reasoning.map ReasoningStep.step_number = [1, 2, 4] ∧
    stepsMonotone ((plan d r).reasoning.map ReasoningStep.step_number) = true ∧
    (plan_with_jira env d r pk).reasoning.map ReasoningStep.step_number =
      1 :: ((plan d r).reasoning.map ReasoningStep.step_number ++ [2, 3, 4]) ∧
    stepsMonotone ((plan_with_jira env d r pk).reasoning.map ReasoningStep.step_number) = false := by
  refine ⟨plan_reasoning_numbers d r, ?_, ?_, ?_⟩
  · rw [plan_reasoning_numbers]; decide
  · rw [pwj_reasoning_numbers, plan_reasoning_numbers]; decide
  · rw [pwj_reasoning_numbers]; decide

/-! ## C6 — risk line filtering -/

/-- C6: `detected_risks` never exceeds 10 entries, and every entry is longer
than 20 characters (so no line whose marker-stripped text is shorter than 20
characters survives) and is the marker-stripped text of some risk-looking
line of the analysis. -/
theorem detected_risks_sound (analysis : String) :
    (detected_risks analysis).length ≤ 10 ∧
    ∀ s ∈ detected_risks analysis, 20 < s.length ∧
      ∃ line ∈ splitNl analysis.toList, riskLineExtract line = some s.toList := by
  constructor
  · simp only [detected_risks, List.length_map, List.length_take]
    omega
  · intro s hs
    simp only [detected_risks, List.mem_map] at hs
    obtain ⟨c, hc, rfl⟩ := hs
    have hc' := List.mem_of_mem_take hc
    rw [List.mem_filterMap] at hc'
    obtain ⟨line, hline, hex⟩ := hc'
    have hlen : 20 < c.length := by
      simp only [riskLineExtract] at hex
      split at hex
      · exact absurd hex (by simp)
      · split at hex
        · split at hex
          · obtain rfl := (Option.some.injEq _ _).mp hex
            assumption
          · exact absurd hex (by simp)
        · exact absurd hex (by simp)
    exact ⟨hlen, line, hline, hex⟩

theorem detected_risks_sound_witness :
    (detected_risks risksSample).length ≤ 10 ∧
    (20 < ("Security risk: SQL injection possible" : String).length ∧
     ∃ line ∈ splitNl risksSample.toList,
       riskLineExtract line = some ("Security risk: SQL injection possible" : String).toList) :=
  ⟨(detected_risks_sound risksSample).1,
   (detected_risks_sound risksSample).2 "Security risk: SQL injection possible" (by decide)⟩

/-! ## C5 — stub responses and the planning fallback -/

/-- C5 (counterexample): not every `"[stub] "`-prefixed response triggers the
fallback.  For the task description `"1. install dependencies now"`, the stub
echo of the planning prompt contains a numbered line, the parser extracts
`["install dependencies now"]`, the invalid-response check returns false, and
the result's subtasks are not the fallback list. -/
theorem plan_stub_fallback_refuted :
    ("[stub] ".toList).isPrefixOf
      (("[stub] " ++ planPrompt "1. install dependencies now").toList) = true ∧
    is_invalid_response
      (parseSubtasks ("[stub] " ++ planPrompt "1. install dependencies now")) = false ∧
    (plan "1. install dependencies now"
      ("[stub] " ++ planPrompt "1. install dependencies now")).subtasks =
      ["install dependencies now"] ∧
    ["install dependencies now"] ≠ fallback_subtasks := by
  refine ⟨?_, ?_, ?_, ?_⟩ <;> decide

/-- C5 (amended): for every plan invocation whose LLM response begins with
`"[stub] "` and from which the numbered-line parser extracts no subtasks (as
happens for the stub echo of the planning prompt whenever the description
itself contributes no numbered/dashed lines), the invalid-response check on
the resulting fallback lines returns true and the result's subtasks equal the
fixed 5-item fallback list verbatim. -/
theorem plan_stub_fallback_amended (d response : String)
    (h1 : ("[stub] ".toList).isPrefixOf response.toList = true)
    (h2 : parseSubtasks response = []) :
    is_invalid_response (fallbackLines response) = true ∧
    (plan d response).subtasks = fallback_subtasks := by
  have hinv := stub_fallback_invalid response h1
  refine ⟨hinv, ?_⟩
  have hraw : plan_raw_subtasks response = fallbackLines response := by
    simp [plan_raw_subtasks, h2]
  show (if is_invalid_response (plan_raw_subtasks response) then fallback_subtasks
        else plan_raw_subtasks response) = fallback_subtasks
  rw [hraw, hinv]
  simp

theorem plan_stub_fallback_amended_witness :
    ("[stub] ".toList).isPrefixOf ("[stub] hello".toList) = true ∧
    parseSubtasks "[stub] hello" = [] ∧
    (is_invalid_response (fallbackLines "[stub] hello") = true ∧
     (plan "Write docs" "[stub] hello").subtasks = fallback_subtasks) :=
  ⟨by decide, by decide,
   plan_stub_fallback_amended "Write docs" "[stub] hello" (by decide) (by decide)⟩
